import Mathlib

/-!
Shallow embedding of the kusabira repository sources:
  src/himetake/src/unixcw_libcw_demo.c
  src/himetake/src/hello_world_c_2.c

The demo wrapper `unixcw_libcw_demo_1` drives the external libcw generator
through create / start / enqueue / wait / stop / delete with a goto-based
unwind chain.  The external libcw calls are modelled by an outcome oracle
(one Bool per call); the observable behaviour of a run is its return value,
the final state of the two process-wide debug objects, the ordered trace of
external calls and global mutations, and the list of diagnostic messages
emitted on failures.
-/

namespace Kusabira

/-- Return type of `unixcw_libcw_demo_1`.  In the external libcw header the
enum `cw_return_values` has exactly the two members
`CW_FAILURE = false` and `CW_SUCCESS = true`. -/
inductive cw_return_values where
  | CW_FAILURE
  | CW_SUCCESS
deriving DecidableEq, Repr

/-- The sound-system selector of the external libcw enum
`cw_audio_systems`; the demo uses only `CW_AUDIO_NULL`. -/
inductive cw_audio_systems where
  | CW_AUDIO_NONE
  | CW_AUDIO_NULL
  | CW_AUDIO_CONSOLE
  | CW_AUDIO_OSS
  | CW_AUDIO_ALSA
  | CW_AUDIO_PA
  | CW_AUDIO_SOUNDCARD
deriving DecidableEq, Repr

/-- Generator configuration, mirroring the fields of libcw's
`cw_gen_config_t` that the demo writes (sound system and device name). -/
structure cw_gen_config_t where
  sound_system : cw_audio_systems
  sound_device : String
deriving DecidableEq, Repr

/-- The device name `CW_DEFAULT_NULL_DEVICE` from the external libcw header.
The demo copies it verbatim into the config; none of the claims inspects
its characters, so its exact text is immaterial here. -/
def CW_DEFAULT_NULL_DEVICE : String := "null"

/-- Debug flag mask `CW_DEBUG_MASK` from the external `libcw_debug.h`.  The
demo stores this constant into both debug objects; the claims depend only
on the constant's identity, never on its numeric value. -/
def CW_DEBUG_MASK : Nat := 4294967295

/-- Debug level `CW_DEBUG_DEBUG` from the external `libcw_debug.h`. -/
def CW_DEBUG_DEBUG : Nat := 0

/-- Debug level `CW_DEBUG_INFO` from the external `libcw_debug.h`. -/
def CW_DEBUG_INFO : Nat := 1

/-- The mutable fields of libcw's `cw_debug_t` that the demo writes:
the flag mask (via `cw_debug_set_flags`) and the level field. -/
structure cw_debug_t where
  flags : Nat
  level : Nat
deriving DecidableEq, Repr

/-- The process-wide mutable state touched by the demo: the two external
debug objects `cw_debug_object` and `cw_debug_object_dev`. -/
structure LibcwGlobals where
  cw_debug_object : cw_debug_t
  cw_debug_object_dev : cw_debug_t
deriving DecidableEq, Repr

/-- Outcome oracle for the five fallible external libcw calls made by
`unixcw_libcw_demo_1`.  A field is `true` when the corresponding call
returns success (`cw_gen_new` returning non-NULL, the others returning
`CW_SUCCESS`). -/
structure LibcwOutcomes where
  gen_new_ok : Bool
  gen_start_ok : Bool
  gen_enqueue_string_ok : Bool
  gen_wait_ok : Bool
  gen_stop_ok : Bool
deriving DecidableEq, Repr

/-- Observable external actions of `unixcw_libcw_demo_1`, in program order:
the four debug-object mutations, then the libcw generator calls with the
arguments the demo passes. -/
inductive CwCall where
  | set_flags_main (flags : Nat)
  | set_level_main (level : Nat)
  | set_flags_dev (flags : Nat)
  | set_level_dev (level : Nat)
  | gen_new (cfg : cw_gen_config_t)
  | gen_start
  | gen_enqueue_string (msg : String)
  | gen_wait_for_queue_level (level : Nat)
  | gen_stop
  | gen_delete
deriving DecidableEq, Repr

/-- Result of one run of `unixcw_libcw_demo_1`: the returned value, the
final global debug state, the ordered trace of external actions, and the
diagnostic messages printed on failures (the `perror` arguments and the
`fprintf(stderr, ...)` text, in emission order). -/
structure DemoRun where
  ret : cw_return_values
  globals : LibcwGlobals
  trace : List CwCall
  diags : List String
deriving DecidableEq, Repr

/-- The generator configuration the demo builds: `memset` to zero, then
`sound_system = CW_AUDIO_NULL` and `sound_device = CW_DEFAULT_NULL_DEVICE`
(copied with `strncpy`). -/
def demoConfig : cw_gen_config_t :=
  { sound_system := cw_audio_systems.CW_AUDIO_NULL
    sound_device := CW_DEFAULT_NULL_DEVICE }

/-- The `err2:` tail of `unixcw_libcw_demo_1`: stop the generator; on stop
failure print the stderr diagnostic and set `ret = CW_FAILURE`; either way
fall through to `err1:` which deletes the generator and returns `ret`. -/
def unixcw_libcw_demo_1_err2 (ret : cw_return_values) (o : LibcwOutcomes)
    (g : LibcwGlobals) (tr : List CwCall) (ds : List String) : DemoRun :=
  let tr := tr ++ [CwCall.gen_stop]
  if o.gen_stop_ok = false then
    { ret := cw_return_values.CW_FAILURE
      globals := g
      trace := tr ++ [CwCall.gen_delete]
      diags := ds ++ ["cw_gen_stop() failed."] }
  else
    { ret := ret
      globals := g
      trace := tr ++ [CwCall.gen_delete]
      diags := ds }

/-- Embedding of `unixcw_libcw_demo_1` (src/himetake/src/unixcw_libcw_demo.c,
lines 64-139).  `ret` starts as `CW_SUCCESS`; the debug log is enabled on
both debug objects; the generator is created from `demoConfig`, started,
fed `msg`, drained, stopped and deleted, with each failure jumping to the
matching `err` label exactly as the C gotos do. -/
def unixcw_libcw_demo_1 (g : LibcwGlobals) (msg : String)
    (o : LibcwOutcomes) : DemoRun :=
  let g := { g with cw_debug_object :=
    { g.cw_debug_object with flags := CW_DEBUG_MASK } }
  let g := { g with cw_debug_object :=
    { g.cw_debug_object with level := CW_DEBUG_DEBUG } }
  let g := { g with cw_debug_object_dev :=
    { g.cw_debug_object_dev with flags := CW_DEBUG_MASK } }
  let g := { g with cw_debug_object_dev :=
    { g.cw_debug_object_dev with level := CW_DEBUG_INFO } }
  let tr : List CwCall :=
    [CwCall.set_flags_main CW_DEBUG_MASK,
     CwCall.set_level_main CW_DEBUG_DEBUG,
     CwCall.set_flags_dev CW_DEBUG_MASK,
     CwCall.set_level_dev CW_DEBUG_INFO]
  let tr := tr ++ [CwCall.gen_new demoConfig]
  if o.gen_new_ok = false then
    { ret := cw_return_values.CW_FAILURE
      globals := g
      trace := tr
      diags := ["cw_gen_new"] }
  else
    let tr := tr ++ [CwCall.gen_start]
    if o.gen_start_ok = false then
      { ret := cw_return_values.CW_FAILURE
        globals := g
        trace := tr ++ [CwCall.gen_delete]
        diags := ["cw_gen_start"] }
    else
      let tr := tr ++ [CwCall.gen_enqueue_string msg]
      if o.gen_enqueue_string_ok = false then
        unixcw_libcw_demo_1_err2 cw_return_values.CW_FAILURE o g tr
          ["cw_gen_enqueue_string"]
      else
        let tr := tr ++ [CwCall.gen_wait_for_queue_level 0]
        if o.gen_wait_ok = false then
          unixcw_libcw_demo_1_err2 cw_return_values.CW_FAILURE o g tr
            ["cw_gen_wait_for_queue_level"]
        else
          unixcw_libcw_demo_1_err2 cw_return_values.CW_SUCCESS o g tr []

/-- Recognises the `cw_gen_new` call in a trace. -/
def isGenNew : CwCall → Bool
  | CwCall.gen_new _ => true
  | _ => false

/-- Recognises the `cw_gen_start` call in a trace. -/
def isGenStart : CwCall → Bool
  | CwCall.gen_start => true
  | _ => false

/-- Recognises the `cw_gen_enqueue_string` call in a trace. -/
def isGenEnqueue : CwCall → Bool
  | CwCall.gen_enqueue_string _ => true
  | _ => false

/-- Recognises the `cw_gen_wait_for_queue_level` call in a trace. -/
def isGenWait : CwCall → Bool
  | CwCall.gen_wait_for_queue_level _ => true
  | _ => false

/-- Recognises the `cw_gen_stop` call in a trace. -/
def isGenStop : CwCall → Bool
  | CwCall.gen_stop => true
  | _ => false

/-- Recognises the `cw_gen_delete` call in a trace. -/
def isGenDelete : CwCall → Bool
  | CwCall.gen_delete => true
  | _ => false

/-- Recognises any generator call (as opposed to a debug mutation). -/
def isGenCall : CwCall → Bool
  | CwCall.gen_new _ => true
  | CwCall.gen_start => true
  | CwCall.gen_enqueue_string _ => true
  | CwCall.gen_wait_for_queue_level _ => true
  | CwCall.gen_stop => true
  | CwCall.gen_delete => true
  | _ => false

/-- The five fallible stages of the wrapper, in program order. -/
inductive Stage where
  | create
  | start
  | enqueue
  | wait
  | stop
deriving DecidableEq, Repr

/-- Spec-side definition, following the spec's words: the first stage (in
create, start, enqueue, wait, stop order) whose external call fails, among
the stages the wrapper actually attempts; `none` when every attempted call
succeeds.  Later fields are consulted only when the earlier stages
succeeded, matching which calls are reachable in the code. -/
def specFirstFailedStage (o : LibcwOutcomes) : Option Stage :=
  if o.gen_new_ok = false then some Stage.create
  else if o.gen_start_ok = false then some Stage.start
  else if o.gen_enqueue_string_ok = false then some Stage.enqueue
  else if o.gen_wait_ok = false then some Stage.wait
  else if o.gen_stop_ok = false then some Stage.stop
  else none

/-- The diagnostic text the demo emits for a failure at each stage (the
`perror` argument, or the stderr line for stop). -/
def stageDiag : Stage → String
  | Stage.create => "cw_gen_new"
  | Stage.start => "cw_gen_start"
  | Stage.enqueue => "cw_gen_enqueue_string"
  | Stage.wait => "cw_gen_wait_for_queue_level"
  | Stage.stop => "cw_gen_stop() failed."

/-- A concrete initial global state used for closed instantiations. -/
def g0 : LibcwGlobals :=
  { cw_debug_object := { flags := 0, level := 3 }
    cw_debug_object_dev := { flags := 0, level := 3 } }

/-- C1: on every outcome combination of the five external calls, the trace
of `unixcw_libcw_demo_1` contains `cw_gen_delete` exactly once when
`cw_gen_new` succeeded and zero times when it failed: the handle is never
leaked and never double-released. -/
theorem C1_destroy_exactly_once (g : LibcwGlobals) (msg : String)
    (o : LibcwOutcomes) :
    (unixcw_libcw_demo_1 g msg o).trace.countP isGenDelete =
      (if o.gen_new_ok then 1 else 0) := by
  obtain ⟨c, s, e, w, t⟩ := o
  cases c <;> cases s <;> cases e <;> cases w <;> cases t <;> rfl

/-- C2: in every execution of `unixcw_libcw_demo_1`, `cw_gen_stop` appears
in the trace exactly when `cw_gen_start` appears in the trace and the start
call succeeded. -/
theorem C2_stop_iff_start_succeeded (g : LibcwGlobals) (msg : String)
    (o : LibcwOutcomes) :
    ((unixcw_libcw_demo_1 g msg o).trace.any isGenStop = true) ↔
      ((unixcw_libcw_demo_1 g msg o).trace.any isGenStart = true ∧
        o.gen_start_ok = true) := by
  obtain ⟨c, s, e, w, t⟩ := o
  cases c <;> cases s <;> cases e <;> cases w <;> cases t <;>
    simp [unixcw_libcw_demo_1, unixcw_libcw_demo_1_err2, isGenStop, isGenStart]

/-- C10: every invocation of `unixcw_libcw_demo_1`, whatever the prior
global state and whatever the call outcomes (including a failing create),
leaves both debug objects set to the demo's flags and levels in the
returned state, and its trace begins with the four debug mutations followed
immediately by `cw_gen_new`, so the debug configuration is written before
any generator call, on every call. -/
theorem C10_debug_config_always_written (g : LibcwGlobals) (msg : String)
    (o : LibcwOutcomes) :
    (unixcw_libcw_demo_1 g msg o).globals.cw_debug_object =
        { flags := CW_DEBUG_MASK, level := CW_DEBUG_DEBUG } ∧
      (unixcw_libcw_demo_1 g msg o).globals.cw_debug_object_dev =
        { flags := CW_DEBUG_MASK, level := CW_DEBUG_INFO } ∧
      (unixcw_libcw_demo_1 g msg o).trace.take 5 =
        [CwCall.set_flags_main CW_DEBUG_MASK,
         CwCall.set_level_main CW_DEBUG_DEBUG,
         CwCall.set_flags_dev CW_DEBUG_MASK,
         CwCall.set_level_dev CW_DEBUG_INFO,
         CwCall.gen_new demoConfig] := by
  obtain ⟨c, s, e, w, t⟩ := o
  cases c <;> cases s <;> cases e <;> cases w <;> cases t <;>
    exact ⟨rfl, rfl, rfl⟩

/-- C5: when all five external calls succeed, `unixcw_libcw_demo_1` returns
`CW_SUCCESS` and its trace of generator calls is exactly one create, one
start, one enqueue, one wait, one stop and one delete, in that order. -/
theorem C5_all_success_trace (g : LibcwGlobals) (msg : String)
    (o : LibcwOutcomes) (h1 : o.gen_new_ok = true) (h2 : o.gen_start_ok = true)
    (h3 : o.gen_enqueue_string_ok = true) (h4 : o.gen_wait_ok = true)
    (h5 : o.gen_stop_ok = true) :
    (unixcw_libcw_demo_1 g msg o).ret = cw_return_values.CW_SUCCESS ∧
      (unixcw_libcw_demo_1 g msg o).trace.filter isGenCall =
        [CwCall.gen_new demoConfig,
         CwCall.gen_start,
         CwCall.gen_enqueue_string msg,
         CwCall.gen_wait_for_queue_level 0,
         CwCall.gen_stop,
         CwCall.gen_delete] := by
  obtain ⟨c, s, e, w, t⟩ := o
  cases c
  · exact absurd h1 (by simp)
  cases s
  · exact absurd h2 (by simp)
  cases e
  · exact absurd h3 (by simp)
  cases w
  · exact absurd h4 (by simp)
  cases t
  · exact absurd h5 (by simp)
  exact ⟨rfl, rfl⟩

/-- C5 witness: the all-success conclusion holds at a concrete state and
message. -/
theorem C5_all_success_trace_witness :
    (unixcw_libcw_demo_1 g0 "paris"
          (LibcwOutcomes.mk true true true true true)).ret =
        cw_return_values.CW_SUCCESS ∧
      (unixcw_libcw_demo_1 g0 "paris"
            (LibcwOutcomes.mk true true true true true)).trace.filter
          isGenCall =
        [CwCall.gen_new demoConfig,
         CwCall.gen_start,
         CwCall.gen_enqueue_string "paris",
         CwCall.gen_wait_for_queue_level 0,
         CwCall.gen_stop,
         CwCall.gen_delete] :=
  C5_all_success_trace g0 "paris" (LibcwOutcomes.mk true true true true true)
    rfl rfl rfl rfl rfl

/-- C6: when `cw_gen_new` fails, `unixcw_libcw_demo_1` returns the failure
and the trace contains no start, no stop and no delete call. -/
theorem C6_create_failure_no_calls (g : LibcwGlobals) (msg : String)
    (o : LibcwOutcomes) (h : o.gen_new_ok = false) :
    (unixcw_libcw_demo_1 g msg o).ret = cw_return_values.CW_FAILURE ∧
      (unixcw_libcw_demo_1 g msg o).trace.countP isGenStart = 0 ∧
      (unixcw_libcw_demo_1 g msg o).trace.countP isGenStop = 0 ∧
      (unixcw_libcw_demo_1 g msg o).trace.countP isGenDelete = 0 := by
  obtain ⟨c, s, e, w, t⟩ := o
  cases c
  · exact ⟨rfl, rfl, rfl, rfl⟩
  · exact absurd h (by simp)

/-- C6 witness: the create-failure conclusion holds at a concrete state and
message. -/
theorem C6_create_failure_no_calls_witness :
    (unixcw_libcw_demo_1 g0 "paris"
          (LibcwOutcomes.mk false true true true true)).ret =
        cw_return_values.CW_FAILURE ∧
      (unixcw_libcw_demo_1 g0 "paris"
            (LibcwOutcomes.mk false true true true true)).trace.countP
          isGenStart = 0 ∧
      (unixcw_libcw_demo_1 g0 "paris"
            (LibcwOutcomes.mk false true true true true)).trace.countP
          isGenStop = 0 ∧
      (unixcw_libcw_demo_1 g0 "paris"
            (LibcwOutcomes.mk false true true true true)).trace.countP
          isGenDelete = 0 :=
  C6_create_failure_no_calls g0 "paris"
    (LibcwOutcomes.mk false true true true true) rfl

/-- C7: when create, start, enqueue and wait succeed but `cw_gen_stop`
fails, `unixcw_libcw_demo_1` returns the failure and `cw_gen_delete` is
still called exactly once. -/
theorem C7_stop_failure_still_deletes (g : LibcwGlobals) (msg : String)
    (o : LibcwOutcomes) (h1 : o.gen_new_ok = true) (h2 : o.gen_start_ok = true)
    (h3 : o.gen_enqueue_string_ok = true) (h4 : o.gen_wait_ok = true)
    (h5 : o.gen_stop_ok = false) :
    (unixcw_libcw_demo_1 g msg o).ret = cw_return_values.CW_FAILURE ∧
      (unixcw_libcw_demo_1 g msg o).trace.countP isGenDelete = 1 := by
  obtain ⟨c, s, e, w, t⟩ := o
  cases c
  · exact absurd h1 (by simp)
  cases s
  · exact absurd h2 (by simp)
  cases e
  · exact absurd h3 (by simp)
  cases w
  · exact absurd h4 (by simp)
  cases t
  · exact ⟨rfl, rfl⟩
  · exact absurd h5 (by simp)

/-- C7 witness: the stop-failure conclusion holds at a concrete state and
message. -/
theorem C7_stop_failure_still_deletes_witness :
    (unixcw_libcw_demo_1 g0 "paris"
          (LibcwOutcomes.mk true true true true false)).ret =
        cw_return_values.CW_FAILURE ∧
      (unixcw_libcw_demo_1 g0 "paris"
            (LibcwOutcomes.mk true true true true false)).trace.countP
          isGenDelete = 1 :=
  C7_stop_failure_still_deletes g0 "paris"
    (LibcwOutcomes.mk true true true true false) rfl rfl rfl rfl rfl

/-- C3 counterexample: the returned result does not identify the first
failed stage.  An execution whose first failure is enqueue and one whose
first failure is stop have different first failed stages but identical
returned results (`CW_FAILURE` in both), so no decoding of the return value
can name the failing stage. -/
theorem C3_counterexample_result_not_stage_identifying :
    specFirstFailedStage (LibcwOutcomes.mk true true false true true) ≠
        specFirstFailedStage (LibcwOutcomes.mk true true true true false) ∧
      (unixcw_libcw_demo_1 g0 "paris"
            (LibcwOutcomes.mk true true false true true)).ret =
        (unixcw_libcw_demo_1 g0 "paris"
            (LibcwOutcomes.mk true true true true false)).ret := by
  decide

/-- C3 (amended): the returned result of `unixcw_libcw_demo_1` only tells
whether some attempted stage failed (`CW_FAILURE` exactly when one did);
the first failed stage is identified by the first diagnostic message, and a
stop failure occurring after an enqueue or wait failure appends a later
diagnostic without displacing the earlier stage's message from the front. -/
theorem C3_first_failure_reported_via_diagnostics (g : LibcwGlobals)
    (msg : String) (o : LibcwOutcomes) :
    ((unixcw_libcw_demo_1 g msg o).ret = cw_return_values.CW_FAILURE ↔
        (specFirstFailedStage o).isSome = true) ∧
      (unixcw_libcw_demo_1 g msg o).diags.head? =
        Option.map stageDiag (specFirstFailedStage o) := by
  obtain ⟨c, s, e, w, t⟩ := o
  cases c <;> cases s <;> cases e <;> cases w <;> cases t <;>
    exact ⟨by simp [unixcw_libcw_demo_1, unixcw_libcw_demo_1_err2,
      specFirstFailedStage], rfl⟩

/-- C4 counterexample: there are not five distinct failure values.  An
execution failing at create and one failing at start have different first
failed stages yet return the very same value, because the return type
carries only `CW_SUCCESS` and `CW_FAILURE`. -/
theorem C4_counterexample_failure_values_coincide :
    specFirstFailedStage (LibcwOutcomes.mk false true true true true) ≠
        specFirstFailedStage (LibcwOutcomes.mk true false true true true) ∧
      (unixcw_libcw_demo_1 g0 "paris"
            (LibcwOutcomes.mk false true true true true)).ret =
        (unixcw_libcw_demo_1 g0 "paris"
            (LibcwOutcomes.mk true false true true true)).ret := by
  decide

/-- C4 (amended): the function returns the single failure value
`CW_FAILURE` for every failing stage; what distinguishes the stages is the
diagnostic message, which is emitted first for the reported failing stage
and names it one-to-one (the five stage diagnostics are pairwise
distinct). -/
theorem C4_stage_identified_by_diagnostic (g : LibcwGlobals) (msg : String)
    (o : LibcwOutcomes) (s : Stage)
    (h : specFirstFailedStage o = some s) :
    (unixcw_libcw_demo_1 g msg o).ret = cw_return_values.CW_FAILURE ∧
      (unixcw_libcw_demo_1 g msg o).diags.head? = some (stageDiag s) ∧
      ∀ u : Stage, stageDiag u = stageDiag s → u = s := by
  obtain ⟨c, s1, e, w, t⟩ := o
  cases c <;> cases s1 <;> cases e <;> cases w <;> cases t <;>
    first
      | (injection h with h0
         subst h0
         refine ⟨rfl, rfl, ?_⟩
         intro u
         cases u <;> decide)
      | injection h

/-- C4 witness: the amended conclusion holds at a concrete enqueue-failure
execution. -/
theorem C4_stage_identified_by_diagnostic_witness :
    (unixcw_libcw_demo_1 g0 "paris"
          (LibcwOutcomes.mk true true false true true)).ret =
        cw_return_values.CW_FAILURE ∧
      (unixcw_libcw_demo_1 g0 "paris"
            (LibcwOutcomes.mk true true false true true)).diags.head? =
        some (stageDiag Stage.enqueue) ∧
      ∀ u : Stage, stageDiag u = stageDiag Stage.enqueue →
        u = Stage.enqueue :=
  C4_stage_identified_by_diagnostic g0 "paris"
    (LibcwOutcomes.mk true true false true true) Stage.enqueue (by decide)

/-- C8 counterexample: the five external calls are not each attempted
exactly once on every execution: when create fails, `cw_gen_start` is
attempted zero times. -/
theorem C8_counterexample_start_not_attempted :
    (unixcw_libcw_demo_1 g0 "paris"
          (LibcwOutcomes.mk false true true true true)).trace.countP
        isGenStart ≠ 1 := by
  decide

/-- C8 (amended): no external call is ever retried: create is attempted
exactly once on every execution, and each of start, enqueue, wait and stop
is attempted at most once. -/
theorem C8_no_call_attempted_twice (g : LibcwGlobals) (msg : String)
    (o : LibcwOutcomes) :
    (unixcw_libcw_demo_1 g msg o).trace.countP isGenNew = 1 ∧
      (unixcw_libcw_demo_1 g msg o).trace.countP isGenStart ≤ 1 ∧
      (unixcw_libcw_demo_1 g msg o).trace.countP isGenEnqueue ≤ 1 ∧
      (unixcw_libcw_demo_1 g msg o).trace.countP isGenWait ≤ 1 ∧
      (unixcw_libcw_demo_1 g msg o).trace.countP isGenStop ≤ 1 := by
  obtain ⟨c, s, e, w, t⟩ := o
  cases c <;> cases s <;> cases e <;> cases w <;> cases t <;>
    refine ⟨rfl, ?_, ?_, ?_, ?_⟩ <;>
    simp [unixcw_libcw_demo_1, unixcw_libcw_demo_1_err2, isGenStart,
      isGenEnqueue, isGenWait, isGenStop]

/-!
Embedding of src/himetake/src/hello_world_c_2.c.

`hello_world_c_2_fn` prints a greeting, invokes the supplied callback with
the string "from C" and prints its return value, then calls the external
`hello_world_rust_2_fn` (passing the file-static `hello_world_c_2_callback`,
not the supplied one) and prints its return value, and finally returns the
return value of the initial greeting `printf`.  The external behaviours —
what each `printf` returns, what the supplied callback returns, and what
`hello_world_rust_2_fn` returns — are modelled by an environment record.
-/

/-- Environment of external behaviours for `hello_world_c_2_fn`:
the value `printf` returns for a given format string, the value the
supplied callback returns for a given argument, and the value the external
`hello_world_rust_2_fn` returns. -/
structure HelloWorldEnv where
  printf_ret : String → Int
  callback_ret : String → Int
  hello_world_rust_2_ret : Int

/-- Observable actions of `hello_world_c_2_fn`, in program order: the
greeting `printf`, the invocation of the supplied callback with its
argument, the `printf` of the callback's return value, the call into the
external `hello_world_rust_2_fn`, and the `printf` of its return value. -/
inductive HelloEvent where
  | printf_greeting
  | callback_invoked (arg : String)
  | printf_callback_ret (value : Int)
  | rust_2_fn_invoked
  | printf_rust_ret (value : Int)
deriving DecidableEq, Repr

/-- Recognises the invocation of the supplied callback in a trace. -/
def isCallbackInvoked : HelloEvent → Bool
  | HelloEvent.callback_invoked _ => true
  | _ => false

/-- The format string of the initial greeting `printf` of
`hello_world_c_2_fn`. -/
def helloGreetingFormat : String :=
  "Hello world 2, printed in C, callback = %p.\n"

/-- Embedding of the file-static `hello_world_c_2_callback`: prints its
message (the `%s` conversion splices the argument into the format) and
returns that `printf` result. -/
def hello_world_c_2_callback (env : HelloWorldEnv) (msg : String) : Int :=
  env.printf_ret ("Hello world 2, printed in C, " ++ msg ++ ".\n")

/-- Embedding of `hello_world_c_2_fn` (src/himetake/src/hello_world_c_2.c,
lines 56-70): returns the pair of the function's return value and the
trace of its observable actions. -/
def hello_world_c_2_fn (env : HelloWorldEnv) : Int × List HelloEvent :=
  let ret := env.printf_ret helloGreetingFormat
  let tr := [HelloEvent.printf_greeting]
  let ret2 := env.callback_ret "from C"
  let tr := tr ++ [HelloEvent.callback_invoked "from C",
    HelloEvent.printf_callback_ret ret2]
  let ret2 := env.hello_world_rust_2_ret
  let tr := tr ++ [HelloEvent.rust_2_fn_invoked,
    HelloEvent.printf_rust_ret ret2]
  (ret, tr)

/-- C9: for every environment, `hello_world_c_2_fn` returns exactly the
return value of its initial greeting `printf`; the supplied callback is
invoked exactly once, with the string "from C"; and the return values of
the callback and of `hello_world_rust_2_fn` appear in the printed output
but never reach the function's own result. -/
theorem C9_hello_world_c_2_fn_behaviour (env : HelloWorldEnv) :
    (hello_world_c_2_fn env).1 = env.printf_ret helloGreetingFormat ∧
      (hello_world_c_2_fn env).2.countP isCallbackInvoked = 1 ∧
      HelloEvent.callback_invoked "from C" ∈ (hello_world_c_2_fn env).2 ∧
      HelloEvent.printf_callback_ret (env.callback_ret "from C") ∈
        (hello_world_c_2_fn env).2 ∧
      HelloEvent.printf_rust_ret env.hello_world_rust_2_ret ∈
        (hello_world_c_2_fn env).2 := by
  refine ⟨rfl, rfl, ?_, ?_, ?_⟩ <;>
    simp [hello_world_c_2_fn]

end Kusabira
